import Mathlib

/-!
A shallow embedding of the chat route module `backend/routes/chat.py`
(FastAPI endpoints `chat`, `get_user_conversations`, `get_conversation_messages`).

Modelling conventions:
* Timestamps (`created_at`) are logical `Nat` clock values.  The store stamps
  each created row with the current clock and advances it, which abstracts the
  database's `datetime` column; the endpoints sort by the ISO-8601 rendering of
  the timestamp, and for a fixed-format rendering that order coincides with the
  order of the timestamps themselves, so we sort by the `Nat` directly.
* The Python sort (`list.sort`, Timsort) is modelled by a stable insertion
  sort `sortBy`: an element is placed before another iff the comparison key
  says it may come first, so equal keys keep their original relative order.
* `message_data` is a JSON object (`Dict[str, Any]`); the fields the code
  reads are modelled as `Option` values, and Python truthiness of the
  `conversation_id` value (which may be an `int` or a `bool`) is modelled
  explicitly by `JsonVal.truthy`.
* The external agent (`TodoAgent`) is a parameter: `agentOk : Bool` models
  whether `TodoAgent(...)` construction succeeds (it raises `ValueError` when
  the credential is missing), and `agent` models `process_message`, returning
  `Except Unit AgentResult` where `.error` is a raised exception.
* HTTP errors raised via `HTTPException` are the constructors of `ChatError`;
  an exception escaping from `process_message` is `ChatError.agentFailure`.
-/

deriving instance DecidableEq for Except

namespace ChatRoutes

/-- A stored conversation row (`models.Conversation`): id, owner, title,
creation timestamp. -/
structure Conversation where
  id : Nat
  user_id : String
  title : String
  created_at : Nat
deriving Repr, DecidableEq

/-- A stored message row (`models.Message`): id, owning conversation, role
("user" or "assistant"), content, creation timestamp. -/
structure Message where
  id : Nat
  conversation_id : Nat
  role : String
  content : String
  created_at : Nat
deriving Repr, DecidableEq

/-- The durable store: conversation and message tables (in insertion order),
the next autoincrement ids, and the logical clock used to stamp
`created_at`. -/
structure DB where
  conversations : List Conversation
  messages : List Message
  nextConversationId : Nat
  nextMessageId : Nat
  clock : Nat
deriving Repr, DecidableEq

/-- Modelled from the spec: `ConversationStore.getById`
(`repositories.conversation_repository.get_conversation_by_id`, not in src) —
read a conversation by id.  The lookup key is an `Int` because the Python call
sites may pass any integer (body values and path parameters). -/
def get_conversation_by_id (db : DB) (key : Int) : Option Conversation :=
  db.conversations.find? (fun c => (c.id : Int) = key)

/-- Modelled from the spec: `ConversationStore.create`
(`repositories.conversation_repository.create_conversation`, not in src) —
append a conversation owned by `user_id`, stamped with the current clock. -/
def create_conversation (db : DB) (title : String) (user_id : String) :
    Conversation × DB :=
  let conv : Conversation :=
    ⟨db.nextConversationId, user_id, title, db.clock⟩
  (conv, { db with conversations := db.conversations ++ [conv],
                   nextConversationId := db.nextConversationId + 1,
                   clock := db.clock + 1 })

/-- Modelled from the spec: `ConversationStore.listByUser`
(`repositories.conversation_repository.get_conversations_by_user_id`, not in
src) — all conversations owned by `user_id`, in store order. -/
def get_conversations_by_user_id (db : DB) (user_id : String) :
    List Conversation :=
  db.conversations.filter (fun c => c.user_id = user_id)

/-- The payload of `models.MessageCreate` as used by the route. -/
structure MessageCreate where
  conversation_id : Nat
  role : String
  content : String
deriving Repr, DecidableEq

/-- Modelled from the spec: `MessageStore.create`
(`repositories.message_repository.create_message`, not in src) — append a
message, stamped with the current clock. -/
def create_message (db : DB) (mc : MessageCreate) : Message × DB :=
  let msg : Message :=
    ⟨db.nextMessageId, mc.conversation_id, mc.role, mc.content, db.clock⟩
  (msg, { db with messages := db.messages ++ [msg],
                  nextMessageId := db.nextMessageId + 1,
                  clock := db.clock + 1 })

/-- Modelled from the spec: `MessageStore.listByConversation`
(`repositories.message_repository.get_messages_by_conversation_id`, not in
src) — the conversation's messages in store (insertion) order; for a
wellformed store this is ascending `created_at` order. -/
def get_messages_by_conversation_id (db : DB) (key : Int) : List Message :=
  db.messages.filter (fun m => (m.conversation_id : Int) = key)

/-- A JSON value that may appear under `"conversation_id"` in the request
body (`Dict[str, Any]`): an integer or a boolean. -/
inductive JsonVal where
  | jint (n : Int)
  | jbool (b : Bool)
deriving Repr, DecidableEq

/-- Python truthiness of the `conversation_id` value: `0` and `False` are
falsy, every other integer and `True` are truthy. -/
def JsonVal.truthy : JsonVal → Bool
  | .jint n => n ≠ 0
  | .jbool b => b

/-- The database key a `conversation_id` value denotes when used in a lookup
(`bool` is a subclass of `int` in Python: `True == 1`, `False == 0`). -/
def JsonVal.toKey : JsonVal → Int
  | .jint n => n
  | .jbool b => if b then 1 else 0

/-- Truthiness of `message_data.get("conversation_id")`: a missing key gives
`None`, which is falsy. -/
def truthyOpt : Option JsonVal → Bool
  | some v => v.truthy
  | none => false

/-- The request body of `POST /{user_id}/chat`: the two fields the handler
reads, each possibly absent. -/
structure ChatRequest where
  conversation_id : Option JsonVal
  message : Option String
deriving Repr, DecidableEq

/-- The `HTTPException` statuses the module raises, plus the uncaught
exception escaping `process_message` (`agentFailure`, surfaced as a 5xx by
the framework). -/
inductive ChatError where
  | badRequest
  | forbidden
  | notFound
  | serverError
  | agentFailure
deriving Repr, DecidableEq

/-- A `{role, content}` pair as handed to the agent
(`formatted_history` entries). -/
structure RoleContent where
  role : String
  content : String
deriving Repr, DecidableEq

/-- The dictionary returned by `TodoAgent.process_message`: `response` may be
absent (the handler reads it with `result.get("response", "")`), plus the
tool-call and tool-result records, passed through opaquely. -/
structure AgentResult where
  response : Option String
  tool_calls : List String
  tool_results : List String
deriving Repr, DecidableEq

/-- The `data` object of a successful chat response. -/
structure ChatResponse where
  conversation_id : Nat
  user_message_id : Nat
  ai_message_id : Nat
  response : String
  tool_calls : List String
  tool_results : List String
deriving Repr, DecidableEq

/-- The title given to a lazily created conversation (line 87 of the source):
`user_message[:50] + "..." if len(user_message) > 50 else user_message`. -/
def newConversationTitle (user_message : String) : String :=
  if user_message.length > 50 then user_message.take 50 ++ "..." else user_message

/-- Lines 74–89 of the source: resolve the conversation.  A truthy
`conversation_id` is looked up and must belong to the caller (absent or
foreign-owned both give 404); a falsy one leads to creating a new
conversation titled from the message. -/
def resolve_conversation (db : DB) (user_id : String)
    (conversation_id : Option JsonVal) (user_message : String) :
    Except ChatError (Conversation × DB) :=
  match conversation_id with
  | some v =>
    if v.truthy then
      match get_conversation_by_id db v.toKey with
      | some existing_conversation =>
        if existing_conversation.user_id = user_id then
          .ok (existing_conversation, db)
        else
          .error .notFound
      | none => .error .notFound
    else
      .ok (create_conversation db (newConversationTitle user_message) user_id)
  | none =>
      .ok (create_conversation db (newConversationTitle user_message) user_id)

/-- The `formatted_history` computed at lines 100–107 of the source: the
conversation's stored messages, each reduced to a `{role, content}` pair. -/
def formatted_history (db : DB) (key : Int) : List RoleContent :=
  (get_messages_by_conversation_id db key).map (fun m => ⟨m.role, m.content⟩)

/-- Lines 91–140 of the source, after the conversation has been resolved to
`conversation` with store `db1`: persist the user message, load and format the
history, construct the agent and invoke it, persist its reply, and assemble
the response. -/
def chat_continue (db1 : DB) (user_id user_message : String)
    (conversation : Conversation) (agentOk : Bool)
    (agent : String → List RoleContent → String → Except Unit AgentResult) :
    Except ChatError ChatResponse × DB :=
  let userStep := create_message db1 ⟨conversation.id, "user", user_message⟩
  if agentOk = false then (.error .serverError, userStep.2)
  else
    match agent user_message
        (formatted_history userStep.2 (conversation.id : Int)) user_id with
    | .error _ => (.error .agentFailure, userStep.2)
    | .ok result =>
      (.ok ⟨conversation.id, userStep.1.id,
            (create_message userStep.2
              ⟨conversation.id, "assistant", result.response.getD ""⟩).1.id,
            result.response.getD "", result.tool_calls, result.tool_results⟩,
       (create_message userStep.2
         ⟨conversation.id, "assistant", result.response.getD ""⟩).2)

/-- The `POST /{user_id}/chat` handler (`chat`, lines 18–140 of the source).
Returns the handler's outcome together with the resulting store (errors raised
before a write leave the store unchanged; an agent failure keeps the already
persisted user message). -/
def chat (db : DB) (user_id : String) (token_sub : Option String)
    (message_data : ChatRequest) (agentOk : Bool)
    (agent : String → List RoleContent → String → Except Unit AgentResult) :
    Except ChatError ChatResponse × DB :=
  if token_sub ≠ some user_id then
    (.error .forbidden, db)
  else
    match message_data.message with
    | none => (.error .badRequest, db)
    | some user_message =>
      if user_message = "" then (.error .badRequest, db)
      else if user_message.length > 1000 then (.error .badRequest, db)
      else
        match resolve_conversation db user_id message_data.conversation_id
            user_message with
        | .error e => (.error e, db)
        | .ok (conversation, db1) =>
          chat_continue db1 user_id user_message conversation agentOk agent

/-- A stable insertion step: `x` is placed before the first element `y` with
`le x y`; with a key-based `le` this keeps equal keys in their original
relative order, as Python's stable sort does. -/
def insertBy (le : α → α → Bool) (x : α) : List α → List α
  | [] => [x]
  | y :: ys => if le x y then x :: y :: ys else y :: insertBy le x ys

/-- Stable sort modelling Python's `list.sort` with a key function. -/
def sortBy (le : α → α → Bool) : List α → List α
  | [] => []
  | x :: xs => insertBy le x (sortBy le xs)

/-- One element of the `GET /{user_id}/conversations` response. -/
structure ConversationEntry where
  id : Nat
  created_at : Nat
  title : String
deriving Repr, DecidableEq

/-- The `GET /{user_id}/conversations` handler (`get_user_conversations`,
lines 143–182 of the source): 403 on identity mismatch, else the caller's
conversations sorted by `created_at` descending (`reverse=True`). -/
def get_user_conversations (db : DB) (user_id : String)
    (token_sub : Option String) : Except ChatError (List ConversationEntry) :=
  if token_sub ≠ some user_id then
    .error .forbidden
  else
    let conversations := get_conversations_by_user_id db user_id
    let result := conversations.map
      (fun conv => (⟨conv.id, conv.created_at, conv.title⟩ : ConversationEntry))
    .ok (sortBy (fun a b => decide (b.created_at ≤ a.created_at)) result)

/-- One element of the
`GET /{user_id}/conversations/{conversation_id}/messages` response. -/
structure MessageEntry where
  id : Nat
  role : String
  content : String
  created_at : Nat
deriving Repr, DecidableEq

/-- The `GET /{user_id}/conversations/{conversation_id}/messages` handler
(`get_conversation_messages`, lines 185–241 of the source): 403 on identity
mismatch, 404 when the conversation is absent or owned by another user, else
the messages sorted by `created_at` ascending. -/
def get_conversation_messages (db : DB) (user_id : String)
    (conversation_id : Int) (token_sub : Option String) :
    Except ChatError (List MessageEntry) :=
  if token_sub ≠ some user_id then
    .error .forbidden
  else
    match get_conversation_by_id db conversation_id with
    | none => .error .notFound
    | some conversation =>
      if conversation.user_id = user_id then
        let messages := get_messages_by_conversation_id db conversation_id
        let result := messages.map
          (fun msg =>
            (⟨msg.id, msg.role, msg.content, msg.created_at⟩ : MessageEntry))
        .ok (sortBy (fun a b => decide (a.created_at ≤ b.created_at)) result)
      else
        .error .notFound

/-- Store wellformedness: messages lie in insertion order of their
timestamps, and every stamped timestamp is in the past of the clock. -/
def WF (db : DB) : Prop :=
  db.messages.Pairwise (fun a b => a.created_at ≤ b.created_at) ∧
  ∀ m ∈ db.messages, m.created_at < db.clock

instance (db : DB) : Decidable (WF db) := by
  unfold WF; infer_instance

/-! ### Helper lemmas -/

theorem mem_insertBy {α : Type} {le : α → α → Bool} {x a : α} {l : List α} :
    a ∈ insertBy le x l ↔ a = x ∨ a ∈ l := by
  induction l with
  | nil => simp [insertBy]
  | cons y ys ih =>
    by_cases h : le x y = true
    · simp [insertBy, h]
    · simp [insertBy, h, ih]
      tauto

theorem pairwise_insertBy {α : Type} {le : α → α → Bool}
    (htr : ∀ a b c, le a b = true → le b c = true → le a c = true)
    (htot : ∀ a b, le a b = true ∨ le b a = true)
    {x : α} {l : List α} (h : l.Pairwise (fun a b => le a b = true)) :
    (insertBy le x l).Pairwise (fun a b => le a b = true) := by
  induction l with
  | nil => simp [insertBy]
  | cons y ys ih =>
    rcases List.pairwise_cons.mp h with ⟨hy, hys⟩
    by_cases hxy : le x y = true
    · simp only [insertBy, hxy, if_true]
      refine List.pairwise_cons.mpr ⟨?_, h⟩
      intro b hb
      rcases List.mem_cons.mp hb with rfl | hb
      · exact hxy
      · exact htr x y b hxy (hy b hb)
    · have hstep : insertBy le x (y :: ys) = y :: insertBy le x ys := by
        simp [insertBy, hxy]
      rw [hstep]
      refine List.pairwise_cons.mpr ⟨?_, ih hys⟩
      intro b hb
      rcases mem_insertBy.mp hb with hbx | hb
      · rw [hbx]
        rcases htot x y with h1 | h1
        · exact absurd h1 hxy
        · exact h1
      · exact hy b hb

theorem pairwise_sortBy {α : Type} {le : α → α → Bool}
    (htr : ∀ a b c, le a b = true → le b c = true → le a c = true)
    (htot : ∀ a b, le a b = true ∨ le b a = true)
    (l : List α) :
    (sortBy le l).Pairwise (fun a b => le a b = true) := by
  induction l with
  | nil => simp [sortBy]
  | cons x xs ih => exact pairwise_insertBy htr htot ih

theorem resolve_conversation_falsy {cid : Option JsonVal}
    (h : truthyOpt cid = false) (db : DB) (u msg : String) :
    resolve_conversation db u cid msg
      = .ok (create_conversation db (newConversationTitle msg) u) := by
  cases cid with
  | none => rfl
  | some v =>
    simp only [truthyOpt] at h
    simp [resolve_conversation, h]

theorem resolve_conversation_ok_inv {db : DB} {user_id : String}
    {cid : Option JsonVal} {msg : String} {conv : Conversation} {db1 : DB}
    (h : resolve_conversation db user_id cid msg = .ok (conv, db1)) :
    db1.messages = db.messages ∧ db.clock ≤ db1.clock ∧
    (truthyOpt cid = true → db1 = db) ∧
    (truthyOpt cid = false →
      conv = ⟨db.nextConversationId, user_id, newConversationTitle msg, db.clock⟩ ∧
      db1 = ⟨db.conversations ++ [conv], db.messages,
             db.nextConversationId + 1, db.nextMessageId, db.clock + 1⟩) := by
  cases cid with
  | none =>
    simp only [resolve_conversation, create_conversation,
      Except.ok.injEq, Prod.mk.injEq] at h
    obtain ⟨hc, hdb⟩ := h
    subst hc; subst hdb
    refine ⟨rfl, Nat.le_succ _, ?_, ?_⟩
    · intro habs; simp [truthyOpt] at habs
    · intro _; exact ⟨rfl, rfl⟩
  | some v =>
    by_cases hv : v.truthy = true
    · simp only [resolve_conversation, hv, if_true] at h
      cases hl : get_conversation_by_id db v.toKey with
      | none => rw [hl] at h; simp at h
      | some c =>
        rw [hl] at h
        by_cases ho : c.user_id = user_id
        · simp only [ho, if_true, Except.ok.injEq, Prod.mk.injEq] at h
          obtain ⟨hc, hdb⟩ := h
          subst hdb
          refine ⟨rfl, Nat.le_refl _, fun _ => rfl, ?_⟩
          intro habs; simp [truthyOpt, hv] at habs
        · simp [ho] at h
    · simp only [Bool.not_eq_true] at hv
      rw [resolve_conversation_falsy (by simp [truthyOpt, hv]) db user_id msg] at h
      simp only [create_conversation, Except.ok.injEq, Prod.mk.injEq] at h
      obtain ⟨hc, hdb⟩ := h
      subst hc; subst hdb
      refine ⟨rfl, Nat.le_succ _, ?_, fun _ => ⟨rfl, rfl⟩⟩
      intro habs; simp [truthyOpt, hv] at habs

theorem chat_unfold_ok {db : DB} {user_id : String} {token_sub : Option String}
    {req : ChatRequest} {agentOk : Bool}
    {agent : String → List RoleContent → String → Except Unit AgentResult}
    {msg : String} {conv : Conversation} {db1 : DB}
    (htok : token_sub = some user_id) (hmsg : req.message = some msg)
    (hne : ¬ msg = "") (hlen : ¬ msg.length > 1000)
    (hres : resolve_conversation db user_id req.conversation_id msg
      = .ok (conv, db1)) :
    chat db user_id token_sub req agentOk agent
      = chat_continue db1 user_id msg conv agentOk agent := by
  simp only [chat, htok, hmsg, hres, if_neg hne, if_neg hlen, ne_eq,
    not_true_eq_false, if_false]

theorem chat_continue_conversations (db1 : DB) (user_id msg : String)
    (conv : Conversation) (agentOk : Bool)
    (agent : String → List RoleContent → String → Except Unit AgentResult) :
    (chat_continue db1 user_id msg conv agentOk agent).2.conversations
      = db1.conversations := by
  cases agentOk with
  | false => rfl
  | true =>
    rcases hag : agent msg
        (formatted_history (create_message db1 ⟨conv.id, "user", msg⟩).2
          (conv.id : Int)) user_id with e | r
    · simp only [chat_continue, hag]
      simp [create_message]
    · simp only [chat_continue, hag]
      simp [create_message]

theorem chat_continue_first_ne_notFound (db1 : DB) (user_id msg : String)
    (conv : Conversation) (agentOk : Bool)
    (agent : String → List RoleContent → String → Except Unit AgentResult) :
    (chat_continue db1 user_id msg conv agentOk agent).1
      ≠ Except.error ChatError.notFound := by
  cases agentOk with
  | false => simp [chat_continue]
  | true =>
    rcases hag : agent msg
        (formatted_history (create_message db1 ⟨conv.id, "user", msg⟩).2
          (conv.id : Int)) user_id with e | r
    · simp only [chat_continue, hag]
      simp
    · simp only [chat_continue, hag]
      simp

/-- Shared helper: when the supplied `conversation_id` is truthy and the
lookup either misses or returns a conversation owned by another user, the
chat handler fails with 404 and writes nothing. -/
theorem chat_lookup_failure_notFound {db : DB} {user_id : String}
    {token_sub : Option String} {req : ChatRequest} {agentOk : Bool}
    {agent : String → List RoleContent → String → Except Unit AgentResult}
    {v : JsonVal} {msg : String}
    (htok : token_sub = some user_id) (hmsg : req.message = some msg)
    (hne : ¬ msg = "") (hlen : ¬ msg.length > 1000)
    (hcid : req.conversation_id = some v) (htr : v.truthy = true)
    (hmiss : get_conversation_by_id db v.toKey = none ∨
      ∃ c, get_conversation_by_id db v.toKey = some c ∧ c.user_id ≠ user_id) :
    chat db user_id token_sub req agentOk agent
      = (.error .notFound, db) := by
  have hres : resolve_conversation db user_id req.conversation_id msg
      = .error .notFound := by
    rw [hcid]
    simp only [resolve_conversation, htr, if_true]
    rcases hmiss with hnone | ⟨c, hc, hcu⟩
    · rw [hnone]
    · rw [hc]; simp [hcu]
  simp only [chat, htok, hmsg, hres, if_neg hne, if_neg hlen, ne_eq,
    not_true_eq_false, if_false]

/-- Shared helper: `get_conversation_messages` fails with 404 when the
lookup misses or returns a conversation owned by another user. -/
theorem listMessages_lookup_failure_notFound {db : DB} {user_id : String}
    {token_sub : Option String} {key : Int}
    (htok : token_sub = some user_id)
    (hmiss : get_conversation_by_id db key = none ∨
      ∃ c, get_conversation_by_id db key = some c ∧ c.user_id ≠ user_id) :
    get_conversation_messages db user_id key token_sub = .error .notFound := by
  simp only [get_conversation_messages, htok, ne_eq, not_true_eq_false,
    if_false]
  rcases hmiss with hnone | ⟨c, hc, hcu⟩
  · rw [hnone]
  · rw [hc]; simp [hcu]

/-- Shared helper: the only error `resolve_conversation` can produce is 404. -/
theorem resolve_conversation_error_inv {db : DB} {u msg : String}
    {cid : Option JsonVal} {e : ChatError}
    (h : resolve_conversation db u cid msg = .error e) : e = .notFound := by
  cases cid with
  | none => simp [resolve_conversation] at h
  | some v =>
    by_cases hv : v.truthy = true
    · simp only [resolve_conversation, hv, if_true] at h
      cases hl : get_conversation_by_id db v.toKey with
      | none =>
        rw [hl] at h
        injection h with h1
        exact h1.symm
      | some c =>
        rw [hl] at h
        by_cases ho : c.user_id = u
        · simp [ho] at h
        · simp only [ho, if_false] at h
          injection h with h1
          exact h1.symm
    · simp only [Bool.not_eq_true] at hv
      rw [resolve_conversation_falsy (by simp [truthyOpt, hv]) db u msg] at h
      simp at h

/-- Shared helper: once past validation, the chat handler never fails with
400 again. -/
theorem chat_continue_first_ne_badRequest (db1 : DB) (user_id msg : String)
    (conv : Conversation) (agentOk : Bool)
    (agent : String → List RoleContent → String → Except Unit AgentResult) :
    (chat_continue db1 user_id msg conv agentOk agent).1
      ≠ Except.error ChatError.badRequest := by
  cases agentOk with
  | false => simp [chat_continue]
  | true =>
    rcases hag : agent msg
        (formatted_history (create_message db1 ⟨conv.id, "user", msg⟩).2
          (conv.id : Int)) user_id with e | r
    · simp only [chat_continue, hag]
      simp
    · simp only [chat_continue, hag]
      simp

/-- Shared helper: when the conversation resolution errors, the chat handler
returns that error with the store unchanged. -/
theorem chat_unfold_error {db : DB} {user_id : String}
    {token_sub : Option String} {req : ChatRequest} {agentOk : Bool}
    {agent : String → List RoleContent → String → Except Unit AgentResult}
    {msg : String} {e : ChatError}
    (htok : token_sub = some user_id) (hmsg : req.message = some msg)
    (hne : ¬ msg = "") (hlen : ¬ msg.length > 1000)
    (hres : resolve_conversation db user_id req.conversation_id msg
      = .error e) :
    chat db user_id token_sub req agentOk agent = (.error e, db) := by
  simp only [chat, htok, hmsg, hres, if_neg hne, if_neg hlen, ne_eq,
    not_true_eq_false, if_false]

/-! ### Claim theorems -/

/-- C3: any request to one of the three endpoints whose path `user_id`
differs from the token subject fails with 403 before any validation, lookup
or write: the chat handler returns 403 with the store unchanged, and both
list endpoints return 403, for every request body, conversation id and store
contents. -/
theorem identity_mismatch_always_forbidden
    (db : DB) (user_id : String) (token_sub : Option String)
    (req : ChatRequest) (agentOk : Bool)
    (agent : String → List RoleContent → String → Except Unit AgentResult)
    (conversation_id : Int)
    (htok : token_sub ≠ some user_id) :
    chat db user_id token_sub req agentOk agent = (.error .forbidden, db) ∧
    get_user_conversations db user_id token_sub = .error .forbidden ∧
    get_conversation_messages db user_id conversation_id token_sub
      = .error .forbidden := by
  refine ⟨?_, ?_, ?_⟩ <;>
    simp [chat, get_user_conversations, get_conversation_messages, htok]

/-- Witness: a caller whose token subject is "bob" hitting user "alice"'s
endpoints gets 403 from all three. -/
theorem identity_mismatch_always_forbidden_witness :
    chat ⟨[], [], 1, 1, 0⟩ "alice" (some "bob") ⟨none, some "hi"⟩ true
        (fun _ _ _ => .ok ⟨some "ok", [], []⟩)
      = (.error .forbidden, ⟨[], [], 1, 1, 0⟩) ∧
    get_user_conversations ⟨[], [], 1, 1, 0⟩ "alice" (some "bob")
      = .error .forbidden ∧
    get_conversation_messages ⟨[], [], 1, 1, 0⟩ "alice" 1 (some "bob")
      = .error .forbidden :=
  identity_mismatch_always_forbidden ⟨[], [], 1, 1, 0⟩ "alice" (some "bob")
    ⟨none, some "hi"⟩ true (fun _ _ _ => .ok ⟨some "ok", [], []⟩) 1 (by decide)

/-- C1 counterexample: user "alice" addressing an existing conversation owned
by "bob" gets `notFound` (404), not `forbidden` (403), refuting the claim
that a foreign-owned conversation yields AuthorizationError. -/
theorem chat_foreign_owner_counterexample :
    chat ⟨[⟨1, "bob", "t", 0⟩], [], 2, 1, 1⟩ "alice" (some "alice")
        ⟨some (.jint 1), some "hi"⟩ true (fun _ _ _ => .ok ⟨some "ok", [], []⟩)
      = (.error .notFound, ⟨[⟨1, "bob", "t", 0⟩], [], 2, 1, 1⟩) ∧
    ChatError.notFound ≠ ChatError.forbidden :=
  ⟨rfl, by decide⟩

/-- C1 (amended): a chat turn with a truthy `conversation_id` fails with
`NotFoundError` (404) both when the conversation is absent and when it exists
but is owned by another user; no `AuthorizationError` arises from conversation
ownership. -/
theorem chat_absent_or_foreign_conversation_notFound
    (db : DB) (user_id : String) (token_sub : Option String)
    (req : ChatRequest) (agentOk : Bool)
    (agent : String → List RoleContent → String → Except Unit AgentResult)
    (v : JsonVal) (msg : String)
    (htok : token_sub = some user_id) (hmsg : req.message = some msg)
    (hne : ¬ msg = "") (hlen : ¬ msg.length > 1000)
    (hcid : req.conversation_id = some v) (htr : v.truthy = true)
    (hmiss : get_conversation_by_id db v.toKey = none ∨
      ∃ c, get_conversation_by_id db v.toKey = some c ∧ c.user_id ≠ user_id) :
    chat db user_id token_sub req agentOk agent = (.error .notFound, db) :=
  chat_lookup_failure_notFound htok hmsg hne hlen hcid htr hmiss

/-- Witness: looking up an id that is absent from the store gives 404 with no
writes. -/
theorem chat_absent_or_foreign_conversation_notFound_witness :
    chat ⟨[⟨1, "bob", "t", 0⟩], [], 2, 1, 1⟩ "alice" (some "alice")
        ⟨some (.jint 5), some "hi"⟩ true (fun _ _ _ => .ok ⟨some "ok", [], []⟩)
      = (.error .notFound, ⟨[⟨1, "bob", "t", 0⟩], [], 2, 1, 1⟩) :=
  chat_absent_or_foreign_conversation_notFound ⟨[⟨1, "bob", "t", 0⟩], [], 2, 1, 1⟩
    "alice" (some "alice") ⟨some (.jint 5), some "hi"⟩ true
    (fun _ _ _ => .ok ⟨some "ok", [], []⟩) (.jint 5) "hi" rfl rfl (by decide)
    (by decide) rfl (by decide) (Or.inl (by decide))

/-- C2: for both the chat turn and the message-listing endpoint, an existing
conversation owned by another user produces exactly the same outcome as an
absent conversation: HTTP 404, with the chat handler leaving the store
unchanged — existence and ownership are checked together and
indistinguishably. -/
theorem foreign_owner_indistinguishable_from_absent
    (db : DB) (user_id : String) (token_sub : Option String)
    (req : ChatRequest) (agentOk : Bool)
    (agent : String → List RoleContent → String → Except Unit AgentResult)
    (v : JsonVal) (msg : String)
    (htok : token_sub = some user_id) (hmsg : req.message = some msg)
    (hne : ¬ msg = "") (hlen : ¬ msg.length > 1000)
    (hcid : req.conversation_id = some v) (htr : v.truthy = true)
    (hmiss : get_conversation_by_id db v.toKey = none ∨
      ∃ c, get_conversation_by_id db v.toKey = some c ∧ c.user_id ≠ user_id) :
    chat db user_id token_sub req agentOk agent = (.error .notFound, db) ∧
    get_conversation_messages db user_id v.toKey token_sub
      = .error .notFound :=
  ⟨chat_lookup_failure_notFound htok hmsg hne hlen hcid htr hmiss,
   listMessages_lookup_failure_notFound htok hmiss⟩

/-- Witness: "alice" addressing "bob"'s conversation 1 gets 404 from both
endpoints. -/
theorem foreign_owner_indistinguishable_from_absent_witness :
    chat ⟨[⟨1, "bob", "t", 0⟩], [], 2, 1, 1⟩ "alice" (some "alice")
        ⟨some (.jint 1), some "hi"⟩ true (fun _ _ _ => .ok ⟨some "ok", [], []⟩)
      = (.error .notFound, ⟨[⟨1, "bob", "t", 0⟩], [], 2, 1, 1⟩) ∧
    get_conversation_messages ⟨[⟨1, "bob", "t", 0⟩], [], 2, 1, 1⟩ "alice"
        (JsonVal.jint 1).toKey (some "alice") = .error .notFound :=
  foreign_owner_indistinguishable_from_absent ⟨[⟨1, "bob", "t", 0⟩], [], 2, 1, 1⟩
    "alice" (some "alice") ⟨some (.jint 1), some "hi"⟩ true
    (fun _ _ _ => .ok ⟨some "ok", [], []⟩) (.jint 1) "hi" rfl rfl (by decide)
    (by decide) rfl (by decide)
    (Or.inr ⟨⟨1, "bob", "t", 0⟩, by decide, by decide⟩)

/-- C4: a chat turn with an empty message, or one longer than 1000
characters, fails with 400 and performs no writes (the store is returned
unchanged); a message of length exactly 1000 passes validation and is never
rejected with 400. -/
theorem chat_message_validation
    (db : DB) (user_id : String) (token_sub : Option String)
    (req : ChatRequest) (agentOk : Bool)
    (agent : String → List RoleContent → String → Except Unit AgentResult)
    (htok : token_sub = some user_id) :
    (req.message = some "" →
      chat db user_id token_sub req agentOk agent = (.error .badRequest, db)) ∧
    (∀ msg : String, req.message = some msg → msg.length > 1000 →
      chat db user_id token_sub req agentOk agent = (.error .badRequest, db)) ∧
    (∀ msg : String, req.message = some msg → msg.length = 1000 →
      (chat db user_id token_sub req agentOk agent).1
        ≠ .error .badRequest) := by
  refine ⟨?_, ?_, ?_⟩
  · intro hmsg
    simp [chat, htok, hmsg]
  · intro msg hmsg hlen
    by_cases hne : msg = ""
    · simp [chat, htok, hmsg, hne]
    · simp [chat, htok, hmsg, if_neg hne, hlen]
  · intro msg hmsg hlen
    have hne : ¬ msg = "" := by
      intro h
      rw [h] at hlen
      exact absurd hlen (by decide)
    have hgt : ¬ msg.length > 1000 := by omega
    cases hres : resolve_conversation db user_id req.conversation_id msg with
    | error e =>
      rw [chat_unfold_error htok hmsg hne hgt hres,
        resolve_conversation_error_inv hres]
      simp
    | ok p =>
      rw [chat_unfold_ok htok hmsg hne hgt (by rw [hres])]
      exact chat_continue_first_ne_badRequest p.2 user_id msg p.1 agentOk agent

set_option maxRecDepth 40000 in
/-- Witness: the empty message and a 1001-character message give 400 with no
writes; a 1000-character message is not rejected. -/
theorem chat_message_validation_witness :
    chat ⟨[], [], 1, 1, 0⟩ "u" (some "u") ⟨none, some ""⟩ true
        (fun _ _ _ => .ok ⟨some "ok", [], []⟩)
      = (.error .badRequest, ⟨[], [], 1, 1, 0⟩) ∧
    chat ⟨[], [], 1, 1, 0⟩ "u" (some "u")
        ⟨none, some (String.mk (List.replicate 1001 'a'))⟩ true
        (fun _ _ _ => .ok ⟨some "ok", [], []⟩)
      = (.error .badRequest, ⟨[], [], 1, 1, 0⟩) ∧
    (chat ⟨[], [], 1, 1, 0⟩ "u" (some "u")
        ⟨none, some (String.mk (List.replicate 1000 'a'))⟩ true
        (fun _ _ _ => .ok ⟨some "ok", [], []⟩)).1
      ≠ .error .badRequest :=
  ⟨(chat_message_validation ⟨[], [], 1, 1, 0⟩ "u" (some "u") ⟨none, some ""⟩
      true (fun _ _ _ => .ok ⟨some "ok", [], []⟩) rfl).1 rfl,
   (chat_message_validation ⟨[], [], 1, 1, 0⟩ "u" (some "u")
      ⟨none, some (String.mk (List.replicate 1001 'a'))⟩
      true (fun _ _ _ => .ok ⟨some "ok", [], []⟩) rfl).2.1
      (String.mk (List.replicate 1001 'a')) rfl (by decide),
   (chat_message_validation ⟨[], [], 1, 1, 0⟩ "u" (some "u")
      ⟨none, some (String.mk (List.replicate 1000 'a'))⟩
      true (fun _ _ _ => .ok ⟨some "ok", [], []⟩) rfl).2.2
      (String.mk (List.replicate 1000 'a')) rfl (by decide)⟩

/-- C5: a chat turn that creates a new conversation (falsy or absent
`conversation_id`, valid message) writes exactly one conversation owned by
the caller whose title is the message verbatim if its length is at most 50,
and its first 50 characters followed by "..." otherwise. -/
theorem new_conversation_title_from_message
    (db : DB) (user_id : String) (token_sub : Option String)
    (req : ChatRequest) (agentOk : Bool)
    (agent : String → List RoleContent → String → Except Unit AgentResult)
    (msg : String)
    (htok : token_sub = some user_id) (hmsg : req.message = some msg)
    (hne : ¬ msg = "") (hlen : ¬ msg.length > 1000)
    (hfalsy : truthyOpt req.conversation_id = false) :
    (chat db user_id token_sub req agentOk agent).2.conversations
      = db.conversations
        ++ [⟨db.nextConversationId, user_id, newConversationTitle msg,
             db.clock⟩] ∧
    (msg.length ≤ 50 → newConversationTitle msg = msg) ∧
    (msg.length > 50 → newConversationTitle msg = msg.take 50 ++ "...") := by
  have hres : resolve_conversation db user_id req.conversation_id msg
      = .ok (⟨db.nextConversationId, user_id, newConversationTitle msg,
              db.clock⟩,
             ⟨db.conversations
                ++ [⟨db.nextConversationId, user_id, newConversationTitle msg,
                     db.clock⟩],
              db.messages, db.nextConversationId + 1, db.nextMessageId,
              db.clock + 1⟩) := by
    rw [resolve_conversation_falsy hfalsy db user_id msg]
    rfl
  refine ⟨?_, ?_, ?_⟩
  · rw [chat_unfold_ok htok hmsg hne hlen hres,
      chat_continue_conversations]
  · intro h50
    unfold newConversationTitle
    rw [if_neg (by omega)]
  · intro h50
    unfold newConversationTitle
    rw [if_pos h50]

/-- Witness: a new conversation from the 2-character message "hi" is titled
"hi" verbatim. -/
theorem new_conversation_title_from_message_witness :
    (chat ⟨[], [], 1, 1, 0⟩ "u" (some "u") ⟨none, some "hi"⟩ true
        (fun _ _ _ => .ok ⟨some "ok", [], []⟩)).2.conversations
      = [] ++ [⟨1, "u", newConversationTitle "hi", 0⟩] ∧
    newConversationTitle "hi" = "hi" :=
  ⟨(new_conversation_title_from_message ⟨[], [], 1, 1, 0⟩ "u" (some "u")
      ⟨none, some "hi"⟩ true (fun _ _ _ => .ok ⟨some "ok", [], []⟩) "hi"
      rfl rfl (by decide) (by decide) rfl).1,
   (new_conversation_title_from_message ⟨[], [], 1, 1, 0⟩ "u" (some "u")
      ⟨none, some "hi"⟩ true (fun _ _ _ => .ok ⟨some "ok", [], []⟩) "hi"
      rfl rfl (by decide) (by decide) rfl).2.1 (by decide)⟩

/-- C6: when the agent invocation raises, the chat turn propagates the
failure, no assistant message is persisted, and the already-persisted user
message remains: the store gains exactly one message, with role "user" and
content equal to the input text. -/
theorem agent_failure_keeps_only_user_message
    (db : DB) (user_id : String) (token_sub : Option String)
    (req : ChatRequest)
    (agent : String → List RoleContent → String → Except Unit AgentResult)
    (msg : String) (conv : Conversation) (db1 : DB)
    (htok : token_sub = some user_id) (hmsg : req.message = some msg)
    (hne : ¬ msg = "") (hlen : ¬ msg.length > 1000)
    (hres : resolve_conversation db user_id req.conversation_id msg
      = .ok (conv, db1))
    (hfail : ∀ m h u, agent m h u = .error ()) :
    chat db user_id token_sub req true agent
      = (.error .agentFailure,
         (create_message db1 ⟨conv.id, "user", msg⟩).2) ∧
    (create_message db1 ⟨conv.id, "user", msg⟩).2.messages
      = db.messages ++ [(create_message db1 ⟨conv.id, "user", msg⟩).1] ∧
    (create_message db1 ⟨conv.id, "user", msg⟩).1.role = "user" ∧
    (create_message db1 ⟨conv.id, "user", msg⟩).1.content = msg := by
  have hmsgs := (resolve_conversation_ok_inv hres).1
  refine ⟨?_, ?_, rfl, rfl⟩
  · rw [chat_unfold_ok htok hmsg hne hlen hres]
    simp only [chat_continue, hfail]
    simp
  · simp only [create_message]
    rw [hmsgs]

/-- Witness: with an always-failing agent, the turn on a fresh store ends in
`agentFailure` and exactly the user message is persisted. -/
theorem agent_failure_keeps_only_user_message_witness :
    chat ⟨[], [], 1, 1, 0⟩ "u" (some "u") ⟨none, some "hi"⟩ true
        (fun _ _ _ => .error ())
      = (.error .agentFailure,
         (create_message ⟨[⟨1, "u", "hi", 0⟩], [], 2, 1, 1⟩
           ⟨1, "user", "hi"⟩).2) ∧
    (create_message ⟨[⟨1, "u", "hi", 0⟩], [], 2, 1, 1⟩
      ⟨1, "user", "hi"⟩).2.messages
      = [] ++ [(create_message ⟨[⟨1, "u", "hi", 0⟩], [], 2, 1, 1⟩
          ⟨1, "user", "hi"⟩).1] ∧
    (create_message ⟨[⟨1, "u", "hi", 0⟩], [], 2, 1, 1⟩
      ⟨1, "user", "hi"⟩).1.role = "user" ∧
    (create_message ⟨[⟨1, "u", "hi", 0⟩], [], 2, 1, 1⟩
      ⟨1, "user", "hi"⟩).1.content = "hi" :=
  agent_failure_keeps_only_user_message ⟨[], [], 1, 1, 0⟩ "u" (some "u")
    ⟨none, some "hi"⟩ (fun _ _ _ => .error ()) "hi" ⟨1, "u", "hi", 0⟩
    ⟨[⟨1, "u", "hi", 0⟩], [], 2, 1, 1⟩ rfl rfl (by decide) (by decide) rfl
    (fun _ _ _ => rfl)

/-- C7 counterexample: a request that does supply a `conversation_id` — the
falsy integer 0 — still completes successfully and creates one new
conversation, refuting "exactly one new Conversation is created if and only
if no conversationId was supplied (zero otherwise)". -/
theorem supplied_falsy_id_still_creates_counterexample :
    (chat ⟨[], [], 1, 1, 0⟩ "u" (some "u") ⟨some (.jint 0), some "hi"⟩ true
        (fun _ _ _ => .ok ⟨some "ok", [], []⟩)).1
      = .ok ⟨1, 1, 2, "ok", [], []⟩ ∧
    (⟨some (.jint 0), some "hi"⟩ : ChatRequest).conversation_id ≠ none ∧
    (chat ⟨[], [], 1, 1, 0⟩ "u" (some "u") ⟨some (.jint 0), some "hi"⟩ true
        (fun _ _ _ => .ok ⟨some "ok", [], []⟩)).2.conversations.length
      = (⟨[], [], 1, 1, 0⟩ : DB).conversations.length + 1 :=
  ⟨rfl, by decide, rfl⟩

/-- C7 (amended): for every successful chat turn, exactly one new
Conversation is created iff no truthy `conversationId` was supplied (an
absent or falsy value — 0 or false — leads to creation, a truthy one to
zero creations), and exactly two Messages are appended — first one with role
"user" and content equal to the input text, then one with role
"assistant". -/
theorem successful_turn_side_effects
    (db : DB) (user_id : String) (token_sub : Option String)
    (req : ChatRequest)
    (agent : String → List RoleContent → String → Except Unit AgentResult)
    (msg : String) (conv : Conversation) (db1 : DB) (r : AgentResult)
    (htok : token_sub = some user_id) (hmsg : req.message = some msg)
    (hne : ¬ msg = "") (hlen : ¬ msg.length > 1000)
    (hres : resolve_conversation db user_id req.conversation_id msg
      = .ok (conv, db1))
    (hag : ∀ m h u, agent m h u = .ok r) :
    chat db user_id token_sub req true agent
      = (.ok ⟨conv.id, (create_message db1 ⟨conv.id, "user", msg⟩).1.id,
              (create_message (create_message db1 ⟨conv.id, "user", msg⟩).2
                ⟨conv.id, "assistant", r.response.getD ""⟩).1.id,
              r.response.getD "", r.tool_calls, r.tool_results⟩,
         (create_message (create_message db1 ⟨conv.id, "user", msg⟩).2
           ⟨conv.id, "assistant", r.response.getD ""⟩).2) ∧
    (create_message (create_message db1 ⟨conv.id, "user", msg⟩).2
      ⟨conv.id, "assistant", r.response.getD ""⟩).2.messages
      = db.messages
        ++ [(create_message db1 ⟨conv.id, "user", msg⟩).1,
            (create_message (create_message db1 ⟨conv.id, "user", msg⟩).2
              ⟨conv.id, "assistant", r.response.getD ""⟩).1] ∧
    (create_message db1 ⟨conv.id, "user", msg⟩).1.role = "user" ∧
    (create_message db1 ⟨conv.id, "user", msg⟩).1.content = msg ∧
    (create_message (create_message db1 ⟨conv.id, "user", msg⟩).2
      ⟨conv.id, "assistant", r.response.getD ""⟩).1.role = "assistant" ∧
    (if truthyOpt req.conversation_id = true then
      (create_message (create_message db1 ⟨conv.id, "user", msg⟩).2
        ⟨conv.id, "assistant", r.response.getD ""⟩).2.conversations
        = db.conversations
     else
      (create_message (create_message db1 ⟨conv.id, "user", msg⟩).2
        ⟨conv.id, "assistant", r.response.getD ""⟩).2.conversations
        = db.conversations ++ [conv]) := by
  obtain ⟨hmsgs, -, htru, hfal⟩ := resolve_conversation_ok_inv hres
  refine ⟨?_, ?_, rfl, rfl, rfl, ?_⟩
  · rw [chat_unfold_ok htok hmsg hne hlen hres]
    simp only [chat_continue, hag]
    simp
  · simp only [create_message]
    rw [hmsgs, List.append_assoc]
    rfl
  · by_cases ht : truthyOpt req.conversation_id = true
    · rw [if_pos ht]
      simp only [create_message]
      rw [htru ht]
    · rw [if_neg ht]
      simp only [create_message]
      rw [(hfal (by simpa using ht)).2]

/-- Witness: a successful turn on a fresh store with no `conversation_id`
creates one conversation and appends the user then assistant messages. -/
theorem successful_turn_side_effects_witness :
    chat ⟨[], [], 1, 1, 0⟩ "u" (some "u") ⟨none, some "hi"⟩ true
        (fun _ _ _ => .ok ⟨some "ok", [], []⟩)
      = (.ok ⟨1, (create_message ⟨[⟨1, "u", "hi", 0⟩], [], 2, 1, 1⟩
                   ⟨1, "user", "hi"⟩).1.id,
              (create_message (create_message ⟨[⟨1, "u", "hi", 0⟩], [], 2, 1, 1⟩
                  ⟨1, "user", "hi"⟩).2 ⟨1, "assistant", "ok"⟩).1.id,
              "ok", [], []⟩,
         (create_message (create_message ⟨[⟨1, "u", "hi", 0⟩], [], 2, 1, 1⟩
             ⟨1, "user", "hi"⟩).2 ⟨1, "assistant", "ok"⟩).2) ∧
    (create_message (create_message ⟨[⟨1, "u", "hi", 0⟩], [], 2, 1, 1⟩
        ⟨1, "user", "hi"⟩).2 ⟨1, "assistant", "ok"⟩).2.messages
      = [] ++ [(create_message ⟨[⟨1, "u", "hi", 0⟩], [], 2, 1, 1⟩
            ⟨1, "user", "hi"⟩).1,
          (create_message (create_message ⟨[⟨1, "u", "hi", 0⟩], [], 2, 1, 1⟩
              ⟨1, "user", "hi"⟩).2 ⟨1, "assistant", "ok"⟩).1] ∧
    (create_message ⟨[⟨1, "u", "hi", 0⟩], [], 2, 1, 1⟩
      ⟨1, "user", "hi"⟩).1.role = "user" ∧
    (create_message ⟨[⟨1, "u", "hi", 0⟩], [], 2, 1, 1⟩
      ⟨1, "user", "hi"⟩).1.content = "hi" ∧
    (create_message (create_message ⟨[⟨1, "u", "hi", 0⟩], [], 2, 1, 1⟩
        ⟨1, "user", "hi"⟩).2 ⟨1, "assistant", "ok"⟩).1.role = "assistant" ∧
    (if truthyOpt (⟨none, some "hi"⟩ : ChatRequest).conversation_id = true then
      (create_message (create_message ⟨[⟨1, "u", "hi", 0⟩], [], 2, 1, 1⟩
          ⟨1, "user", "hi"⟩).2 ⟨1, "assistant", "ok"⟩).2.conversations = []
     else
      (create_message (create_message ⟨[⟨1, "u", "hi", 0⟩], [], 2, 1, 1⟩
          ⟨1, "user", "hi"⟩).2 ⟨1, "assistant", "ok"⟩).2.conversations
        = [] ++ [⟨1, "u", "hi", 0⟩]) :=
  successful_turn_side_effects ⟨[], [], 1, 1, 0⟩ "u" (some "u")
    ⟨none, some "hi"⟩ (fun _ _ _ => .ok ⟨some "ok", [], []⟩) "hi"
    ⟨1, "u", "hi", 0⟩ ⟨[⟨1, "u", "hi", 0⟩], [], 2, 1, 1⟩ ⟨some "ok", [], []⟩
    rfl rfl (by decide) (by decide) rfl (fun _ _ _ => rfl)

/-- C10: a chat turn whose body supplies a falsy `conversation_id` (the
integer 0 or `false`) is handled exactly as if none were supplied: the
outcome equals that of the same request without a `conversation_id`, it can
never be 404, and a new conversation owned by the caller is created. -/
theorem falsy_conversation_id_treated_as_absent
    (db : DB) (user_id : String) (token_sub : Option String)
    (req : ChatRequest) (agentOk : Bool)
    (agent : String → List RoleContent → String → Except Unit AgentResult)
    (v : JsonVal) (msg : String)
    (htok : token_sub = some user_id) (hmsg : req.message = some msg)
    (hne : ¬ msg = "") (hlen : ¬ msg.length > 1000)
    (hcid : req.conversation_id = some v) (hfalsy : v.truthy = false) :
    chat db user_id token_sub req agentOk agent
      = chat db user_id token_sub ⟨none, req.message⟩ agentOk agent ∧
    (chat db user_id token_sub req agentOk agent).1 ≠ .error .notFound ∧
    (chat db user_id token_sub req agentOk agent).2.conversations
      = db.conversations
        ++ [⟨db.nextConversationId, user_id, newConversationTitle msg,
             db.clock⟩] := by
  have hf : truthyOpt req.conversation_id = false := by
    rw [hcid]
    simpa [truthyOpt] using hfalsy
  have hres : resolve_conversation db user_id req.conversation_id msg
      = .ok (⟨db.nextConversationId, user_id, newConversationTitle msg,
              db.clock⟩,
             ⟨db.conversations
                ++ [⟨db.nextConversationId, user_id, newConversationTitle msg,
                     db.clock⟩],
              db.messages, db.nextConversationId + 1, db.nextMessageId,
              db.clock + 1⟩) := by
    rw [resolve_conversation_falsy hf db user_id msg]
    rfl
  have hresn : resolve_conversation db user_id
      (⟨none, req.message⟩ : ChatRequest).conversation_id msg
      = .ok (⟨db.nextConversationId, user_id, newConversationTitle msg,
              db.clock⟩,
             ⟨db.conversations
                ++ [⟨db.nextConversationId, user_id, newConversationTitle msg,
                     db.clock⟩],
              db.messages, db.nextConversationId + 1, db.nextMessageId,
              db.clock + 1⟩) := rfl
  have hmsg2 : (⟨none, req.message⟩ : ChatRequest).message = some msg := hmsg
  refine ⟨?_, ?_, ?_⟩
  · rw [chat_unfold_ok htok hmsg hne hlen hres,
      chat_unfold_ok htok hmsg2 hne hlen hresn]
  · rw [chat_unfold_ok htok hmsg hne hlen hres]
    exact chat_continue_first_ne_notFound _ _ _ _ _ _
  · rw [chat_unfold_ok htok hmsg hne hlen hres,
      chat_continue_conversations]

/-- Witness: supplying `conversation_id: false` behaves exactly like omitting
it and creates a fresh conversation for the caller. -/
theorem falsy_conversation_id_treated_as_absent_witness :
    chat ⟨[], [], 1, 1, 0⟩ "u" (some "u") ⟨some (.jbool false), some "hi"⟩
        true (fun _ _ _ => .ok ⟨some "ok", [], []⟩)
      = chat ⟨[], [], 1, 1, 0⟩ "u" (some "u")
          ⟨none, (⟨some (.jbool false), some "hi"⟩ : ChatRequest).message⟩
          true (fun _ _ _ => .ok ⟨some "ok", [], []⟩) ∧
    (chat ⟨[], [], 1, 1, 0⟩ "u" (some "u") ⟨some (.jbool false), some "hi"⟩
        true (fun _ _ _ => .ok ⟨some "ok", [], []⟩)).1 ≠ .error .notFound ∧
    (chat ⟨[], [], 1, 1, 0⟩ "u" (some "u") ⟨some (.jbool false), some "hi"⟩
        true (fun _ _ _ => .ok ⟨some "ok", [], []⟩)).2.conversations
      = [] ++ [⟨1, "u", newConversationTitle "hi", 0⟩] :=
  falsy_conversation_id_treated_as_absent ⟨[], [], 1, 1, 0⟩ "u" (some "u")
    ⟨some (.jbool false), some "hi"⟩ true
    (fun _ _ _ => .ok ⟨some "ok", [], []⟩) (.jbool false) "hi"
    rfl rfl (by decide) (by decide) rfl rfl

/-- Shared helper: the conversation listing's sort is descending by
`created_at`. -/
theorem sortBy_desc_created_at (l : List ConversationEntry) :
    (sortBy (fun a b => decide (b.created_at ≤ a.created_at)) l).Pairwise
      (fun a b => b.created_at ≤ a.created_at) := by
  have h := @pairwise_sortBy ConversationEntry
    (fun a b => decide (b.created_at ≤ a.created_at))
    (fun a b c h1 h2 => by
      simp only [decide_eq_true_eq] at h1 h2 ⊢
      omega)
    (fun a b => by
      simp only [decide_eq_true_eq]
      omega) l
  exact h.imp (fun hab => by simpa using hab)

/-- Shared helper: the message listing's sort is ascending by
`created_at`. -/
theorem sortBy_asc_created_at (l : List MessageEntry) :
    (sortBy (fun a b => decide (a.created_at ≤ b.created_at)) l).Pairwise
      (fun a b => a.created_at ≤ b.created_at) := by
  have h := @pairwise_sortBy MessageEntry
    (fun a b => decide (a.created_at ≤ b.created_at))
    (fun a b c h1 h2 => by
      simp only [decide_eq_true_eq] at h1 h2 ⊢
      omega)
    (fun a b => by
      simp only [decide_eq_true_eq]
      omega) l
  exact h.imp (fun hab => by simpa using hab)

/-- C8: the history handed to the agent is exactly the conversation's stored
messages reduced to `{role, content}` pairs with nothing filtered out, the
underlying messages are in ascending `created_at` order (for a wellformed
store), and — the history being loaded after the user message is persisted —
its last entry is the just-persisted user message. -/
theorem agent_history_complete_ordered_ends_with_user
    (db : DB) (user_id msg : String) (cid : Option JsonVal)
    (conv : Conversation) (db1 : DB)
    (hwf : WF db)
    (hres : resolve_conversation db user_id cid msg = .ok (conv, db1)) :
    formatted_history (create_message db1 ⟨conv.id, "user", msg⟩).2
        (conv.id : Int)
      = (get_messages_by_conversation_id
          (create_message db1 ⟨conv.id, "user", msg⟩).2 (conv.id : Int)).map
          (fun m => ⟨m.role, m.content⟩) ∧
    (∀ m ∈ (create_message db1 ⟨conv.id, "user", msg⟩).2.messages,
      (m.conversation_id : Int) = (conv.id : Int) →
      m ∈ get_messages_by_conversation_id
            (create_message db1 ⟨conv.id, "user", msg⟩).2 (conv.id : Int)) ∧
    (get_messages_by_conversation_id
        (create_message db1 ⟨conv.id, "user", msg⟩).2 (conv.id : Int)).Pairwise
      (fun a b => a.created_at ≤ b.created_at) ∧
    (formatted_history (create_message db1 ⟨conv.id, "user", msg⟩).2
        (conv.id : Int)).getLast? = some ⟨"user", msg⟩ := by
  obtain ⟨hmsgs, hclk, -, -⟩ := resolve_conversation_ok_inv hres
  have hwf1p : db1.messages.Pairwise
      (fun a b => a.created_at ≤ b.created_at) :=
    hmsgs.symm ▸ hwf.1
  have hbound : ∀ m ∈ db1.messages, m.created_at < db1.clock := by
    intro m hm
    exact lt_of_lt_of_le (hwf.2 m (hmsgs ▸ hm)) hclk
  have hfilter : get_messages_by_conversation_id
      (create_message db1 ⟨conv.id, "user", msg⟩).2 (conv.id : Int)
      = db1.messages.filter
          (fun m => (m.conversation_id : Int) = (conv.id : Int))
        ++ [⟨db1.nextMessageId, conv.id, "user", msg, db1.clock⟩] := by
    simp [get_messages_by_conversation_id, create_message, List.filter_append]
  refine ⟨rfl, ?_, ?_, ?_⟩
  · intro m hm hk
    exact List.mem_filter.mpr ⟨hm, by simpa using hk⟩
  · rw [hfilter]
    refine List.pairwise_append.mpr ⟨List.Pairwise.filter _ hwf1p,
      List.pairwise_singleton _ _, ?_⟩
    intro a ha b hb
    rw [List.mem_singleton] at hb
    subst hb
    exact le_of_lt (hbound a (List.mem_of_mem_filter ha))
  · simp only [formatted_history]
    rw [hfilter, List.map_append]
    simp [List.getLast?_concat]

/-- Witness: on a store holding one prior exchange, the formatted history is
complete, ascending, and ends with the new user message. -/
theorem agent_history_complete_ordered_ends_with_user_witness :
    formatted_history
        (create_message ⟨[⟨1, "u", "t", 0⟩],
          [⟨1, 1, "user", "a", 1⟩, ⟨2, 1, "assistant", "b", 2⟩], 2, 3, 3⟩
          ⟨1, "user", "new"⟩).2 (1 : Int)
      = (get_messages_by_conversation_id
          (create_message ⟨[⟨1, "u", "t", 0⟩],
            [⟨1, 1, "user", "a", 1⟩, ⟨2, 1, "assistant", "b", 2⟩], 2, 3, 3⟩
            ⟨1, "user", "new"⟩).2 (1 : Int)).map
          (fun m => ⟨m.role, m.content⟩) ∧
    (∀ m ∈ (create_message ⟨[⟨1, "u", "t", 0⟩],
        [⟨1, 1, "user", "a", 1⟩, ⟨2, 1, "assistant", "b", 2⟩], 2, 3, 3⟩
        ⟨1, "user", "new"⟩).2.messages,
      (m.conversation_id : Int) = (1 : Int) →
      m ∈ get_messages_by_conversation_id
            (create_message ⟨[⟨1, "u", "t", 0⟩],
              [⟨1, 1, "user", "a", 1⟩, ⟨2, 1, "assistant", "b", 2⟩], 2, 3, 3⟩
              ⟨1, "user", "new"⟩).2 (1 : Int)) ∧
    (get_messages_by_conversation_id
        (create_message ⟨[⟨1, "u", "t", 0⟩],
          [⟨1, 1, "user", "a", 1⟩, ⟨2, 1, "assistant", "b", 2⟩], 2, 3, 3⟩
          ⟨1, "user", "new"⟩).2 (1 : Int)).Pairwise
      (fun a b => a.created_at ≤ b.created_at) ∧
    (formatted_history
        (create_message ⟨[⟨1, "u", "t", 0⟩],
          [⟨1, 1, "user", "a", 1⟩, ⟨2, 1, "assistant", "b", 2⟩], 2, 3, 3⟩
          ⟨1, "user", "new"⟩).2 (1 : Int)).getLast?
      = some ⟨"user", "new"⟩ :=
  agent_history_complete_ordered_ends_with_user
    ⟨[⟨1, "u", "t", 0⟩],
      [⟨1, 1, "user", "a", 1⟩, ⟨2, 1, "assistant", "b", 2⟩], 2, 3, 3⟩
    "u" "new" (some (.jint 1)) ⟨1, "u", "t", 0⟩
    ⟨[⟨1, "u", "t", 0⟩],
      [⟨1, 1, "user", "a", 1⟩, ⟨2, 1, "assistant", "b", 2⟩], 2, 3, 3⟩
    (by decide) rfl

/-- C9 counterexample: two conversations sharing a `created_at` are returned
in an order that is not strictly descending (the two equal keys are adjacent),
refuting the strictness of the claimed sort. -/
theorem equal_timestamps_break_strict_sort_counterexample :
    get_user_conversations ⟨[⟨1, "u", "a", 5⟩, ⟨2, "u", "b", 5⟩], [], 3, 1, 6⟩
        "u" (some "u")
      = .ok [⟨1, 5, "a"⟩, ⟨2, 5, "b"⟩] ∧
    ¬ ([(⟨1, 5, "a"⟩ : ConversationEntry), ⟨2, 5, "b"⟩].Pairwise
        (fun a b => b.created_at < a.created_at)) :=
  ⟨rfl, by decide⟩

/-- C9 (amended): `listConversations` output is sorted descending by
`createdAt` and `listMessages` output ascending; the order is strict whenever
the `createdAt` values are pairwise distinct (ties make it non-strict). -/
theorem list_endpoints_sorted_by_created_at
    (db : DB) (u : String) (t : Option String) (cid : Int)
    (l : List ConversationEntry) (l2 : List MessageEntry)
    (hconv : get_user_conversations db u t = .ok l)
    (hmsgsl : get_conversation_messages db u cid t = .ok l2) :
    l.Pairwise (fun a b => b.created_at ≤ a.created_at) ∧
    (l.Pairwise (fun a b => a.created_at ≠ b.created_at) →
      l.Pairwise (fun a b => b.created_at < a.created_at)) ∧
    l2.Pairwise (fun a b => a.created_at ≤ b.created_at) ∧
    (l2.Pairwise (fun a b => a.created_at ≠ b.created_at) →
      l2.Pairwise (fun a b => a.created_at < b.created_at)) := by
  by_cases ht : t = some u
  case neg =>
    simp [get_user_conversations, ht] at hconv
  have hl : l = sortBy (fun a b => decide (b.created_at ≤ a.created_at))
      ((get_conversations_by_user_id db u).map
        (fun conv =>
          (⟨conv.id, conv.created_at, conv.title⟩ : ConversationEntry))) := by
    simp only [get_user_conversations, ht, ne_eq, not_true_eq_false, if_false,
      Except.ok.injEq] at hconv
    exact hconv.symm
  have hl2 : ∃ msgs : List Message,
      l2 = sortBy (fun a b => decide (a.created_at ≤ b.created_at))
        (msgs.map (fun m =>
          (⟨m.id, m.role, m.content, m.created_at⟩ : MessageEntry))) := by
    simp only [get_conversation_messages, ht, ne_eq, not_true_eq_false,
      if_false] at hmsgsl
    cases hlook : get_conversation_by_id db cid with
    | none => rw [hlook] at hmsgsl; simp at hmsgsl
    | some c =>
      rw [hlook] at hmsgsl
      by_cases ho : c.user_id = u
      · simp only [ho, if_true, Except.ok.injEq] at hmsgsl
        exact ⟨get_messages_by_conversation_id db cid, hmsgsl.symm⟩
      · simp [ho] at hmsgsl
  obtain ⟨msgs, hl2eq⟩ := hl2
  subst hl
  subst hl2eq
  refine ⟨sortBy_desc_created_at _, ?_, sortBy_asc_created_at _, ?_⟩
  · intro hne
    exact ((sortBy_desc_created_at _).and hne).imp
      (fun h => Nat.lt_of_le_of_ne h.1 (Ne.symm h.2))
  · intro hne
    exact ((sortBy_asc_created_at _).and hne).imp
      (fun h => Nat.lt_of_le_of_ne h.1 h.2)

/-- Witness: on a store with one conversation and a two-message exchange with
distinct timestamps, both listings come back sorted, strictly. -/
theorem list_endpoints_sorted_by_created_at_witness :
    (([⟨1, 1, "c1"⟩] : List ConversationEntry).Pairwise
      (fun a b => b.created_at ≤ a.created_at) ∧
    (([⟨1, 1, "c1"⟩] : List ConversationEntry).Pairwise
        (fun a b => a.created_at ≠ b.created_at) →
      ([⟨1, 1, "c1"⟩] : List ConversationEntry).Pairwise
        (fun a b => b.created_at < a.created_at)) ∧
    ([⟨1, "user", "x", 2⟩, ⟨2, "assistant", "y", 3⟩] : List MessageEntry).Pairwise
      (fun a b => a.created_at ≤ b.created_at) ∧
    (([⟨1, "user", "x", 2⟩, ⟨2, "assistant", "y", 3⟩] : List MessageEntry).Pairwise
        (fun a b => a.created_at ≠ b.created_at) →
      ([⟨1, "user", "x", 2⟩, ⟨2, "assistant", "y", 3⟩] : List MessageEntry).Pairwise
        (fun a b => a.created_at < b.created_at))) :=
  list_endpoints_sorted_by_created_at
    ⟨[⟨1, "u", "c1", 1⟩],
      [⟨1, 1, "user", "x", 2⟩, ⟨2, 1, "assistant", "y", 3⟩], 2, 3, 4⟩
    "u" (some "u") 1 [⟨1, 1, "c1"⟩]
    [⟨1, "user", "x", 2⟩, ⟨2, "assistant", "y", 3⟩] rfl rfl

end ChatRoutes
